import Mathlib

/-!
Verification of the flight-record data-access layer (`src/data.py`).

The module is shallowly embedded:

* the two database tables that the executed queries touch (`flights`,
  `airlines`) become lists of records;
* each SQL template becomes (a) its verbatim text, used for template-level
  facts, and (b) an executable denotation over a `DB` value, translated
  clause by clause from the SQL (join, `WHERE` conjuncts in source order,
  `ORDER BY DEPARTURE_DELAY DESC`, projection);
* Python's dynamic typing at the method boundaries is modelled by `PyVal`,
  and SQLite's comparison of a typed column against a bound parameter by
  `pvEqInt` / `pvEqStr` (a type mismatch or a NULL comparison never matches);
* the engine/connection that can fault at execution time is modelled by
  `StoreBehavior`; `execute_query` mirrors the try/except of
  `FlightData._execute_query`, pairing the returned rows with the lines the
  handler prints to standard output, and threading the store state through so
  that read-only-ness is expressible;
* `SQLite lower()` folds only ASCII A-Z (`asciiLowerChar`), and `LIKE` with
  `%` / `_` wildcards is `likeMatch`; since the query lowercases both sides,
  comparing lowered characters exactly coincides with SQLite's
  ASCII-case-insensitive `LIKE`.
-/

namespace SkySql

/-- A scalar value as stored in / returned from the SQLite database. -/
inductive Val where
  | null
  | int (i : Int)
  | str (s : String)
deriving Repr, DecidableEq

/-- A row of the `flights` table (columns per the backing schema). -/
structure FlightRow where
  id : Int
  airline : Int
  originAirport : String
  destinationAirport : String
  departureDelay : Option Int
  day : Int
  month : Int
  year : Int
deriving Repr, DecidableEq

/-- A row of the `airlines` table. -/
structure AirlineRow where
  id : Int
  airline : String
deriving Repr, DecidableEq

/-- The relational store as seen by the executed queries. -/
structure DB where
  flights : List FlightRow
  airlines : List AirlineRow
deriving Repr, DecidableEq

/-- A result record: an ordered mapping from column name to value. -/
abbrev Row := List (String × Val)

/-- A Python value crossing the accessor's method boundary. -/
inductive PyVal where
  | str (s : String)
  | int (i : Int)
  | bool (b : Bool)
  | none
deriving Repr, DecidableEq

def PyVal.typeName : PyVal → String
  | .str _ => "str"
  | .int _ => "int"
  | .bool _ => "bool"
  | .none => "NoneType"

def PyVal.isStr : PyVal → Bool
  | .str _ => true
  | _ => false

/-- Python `str.__add__`: concatenation succeeds only on a string argument,
otherwise a `TypeError` is raised (modelled as `Except.error`). -/
def strAdd (a : String) (v : PyVal) : Except String String :=
  match v with
  | .str b => .ok (a ++ b)
  | v => .error ( "TypeError: can only concatenate str (not \"" ++ v.typeName ++ "\") to str")

/-- SQLite comparison of an INTEGER column against a bound Python value:
Python bools bind as 0/1 integers; `NULL` and values of another storage
class never compare equal. -/
def pvEqInt (col : Int) (v : PyVal) : Bool :=
  match v with
  | .int j => col == j
  | .bool b => col == (if b then (1 : Int) else 0)
  | _ => false

/-- SQLite comparison of a TEXT column against a bound Python value. -/
def pvEqStr (col : String) (v : PyVal) : Bool :=
  match v with
  | .str t => col == t
  | _ => false

/-- SQLite `lower()`: folds ASCII A-Z only. -/
def asciiLowerChar (c : Char) : Char :=
  if 65 ≤ c.toNat ∧ c.toNat ≤ 90 then Char.ofNat (c.toNat + 32) else c

def asciiLower (s : String) : String := String.mk (s.data.map asciiLowerChar)

/-- SQL `LIKE` pattern matching: `%` matches any sequence, `_` any single
character, all other characters match themselves exactly.  (The query text
lowercases both operands, so exact character comparison here coincides with
SQLite's ASCII-case-insensitive default `LIKE`.) -/
def likeMatch : List Char → List Char → Bool
  | [], s => s.isEmpty
  | p :: ps, s =>
    if p == '%' then s.tails.any (fun s2 => likeMatch ps s2)
    else
      match s with
      | [] => false
      | c :: cs => (p == '_' || p == c) && likeMatch ps cs

/-! ## The six query templates (verbatim from `src/data.py`) -/

def QUERY_FLIGHT_BY_ID : String :=
  "SELECT flights.*, airlines.airline, flights.ID as FLIGHT_ID, flights.DEPARTURE_DELAY as DELAY FROM flights JOIN airlines ON flights.airline = airlines.id WHERE flights.ID = :id"

def QUERY_FLIGHT_BY_DATE : String :=
  "SELECT f.id, f.ORIGIN_AIRPORT, f.DESTINATION_AIRPORT, a.AIRLINE, f.DEPARTURE_DELAY AS DELAY FROM airlines AS a JOIN flights AS f ON\ta.ID = f.AIRLINE WHERE COALESCE(f.DEPARTURE_DELAY, 0) AND f.DAY = :day AND f.MONTH = :month AND f.YEAR = :year AND f.DEPARTURE_DELAY >= 20 ORDER BY DEPARTURE_DELAY DESC"

def QUERY_FLIGHT_BY_AIRLINE : String :=
  "SELECT f.id, f.ORIGIN_AIRPORT, f.DESTINATION_AIRPORT, a.AIRLINE, f.DEPARTURE_DELAY AS DELAY FROM airlines AS a JOIN flights AS f ON a.ID = f.AIRLINE WHERE COALESCE(f.DEPARTURE_DELAY, 0) AND f.DEPARTURE_DELAY >= 20 AND lower(a.AIRLINE) LIKE lower(:airline) ORDER BY DEPARTURE_DELAY DESC"

def QUERY_FLIGHT_BY_ORIGIN_AIRPORT : String :=
  "SELECT f.id, f.ORIGIN_AIRPORT, f.DESTINATION_AIRPORT, a.AIRLINE, f.DEPARTURE_DELAY AS DELAY FROM airlines AS a JOIN flights AS f ON a.ID = f.AIRLINE WHERE COALESCE(f.DEPARTURE_DELAY, 0) AND f.DEPARTURE_DELAY >= 20 AND f.ORIGIN_AIRPORT = :origin_airport ORDER BY DEPARTURE_DELAY DESC"

def QUERY_AVG_PERCENTAGE_DELAYED_FLIGHTS : String :=
  "SELECT ORIGIN_AIRPORT, DESTINATION_AIRPORT, AVG(DELAYED_FLIGHTS * 100.0 / TOTAL_FLIGHTS) AS PERCENT_DELAYED FROM ( SELECT ORIGIN_AIRPORT, DESTINATION_AIRPORT, COUNT(CASE WHEN DEPARTURE_DELAY >= 20 THEN 0 END) AS DELAYED_FLIGHTS, COUNT(*) AS TOTAL_FLIGHTS FROM flights GROUP BY ORIGIN_AIRPORT, DESTINATION_AIRPORT ) AS ROUTE_STATS WHERE (ORIGIN_AIRPORT = :origin AND DESTINATION_AIRPORT = :destination) OR (ORIGIN_AIRPORT = :origin_vv AND DESTINATION_AIRPORT = :destination_vv) GROUP BY ORIGIN_AIRPORT, DESTINATION_AIRPORT"

def QUERY_LONG_LAT : String :=
  "SELECT IATA_CODE, LATITUDE, LONGITUDE FROM airports WHERE IATA_CODE = :origin OR IATA_CODE = :destination"

/-- The fixed set of named templates, in source order. -/
inductive TemplateName where
  | flightById
  | flightByDate
  | flightByAirline
  | flightByOriginAirport
  | avgPercentageDelayedFlights
  | longLat
deriving Repr, DecidableEq

def templateNames : List TemplateName :=
  [.flightById, .flightByDate, .flightByAirline, .flightByOriginAirport,
   .avgPercentageDelayedFlights, .longLat]

def templateText : TemplateName → String
  | .flightById => QUERY_FLIGHT_BY_ID
  | .flightByDate => QUERY_FLIGHT_BY_DATE
  | .flightByAirline => QUERY_FLIGHT_BY_AIRLINE
  | .flightByOriginAirport => QUERY_FLIGHT_BY_ORIGIN_AIRPORT
  | .avgPercentageDelayedFlights => QUERY_AVG_PERCENTAGE_DELAYED_FLIGHTS
  | .longLat => QUERY_LONG_LAT

/-- The read operations the accessor exposes (its public methods). -/
inductive ReadOp where
  | byId
  | byDate
  | byAirline
  | byOriginAirport
deriving Repr, DecidableEq

def readOps : List ReadOp := [.byId, .byDate, .byAirline, .byOriginAirport]

/-- Which template each public read operation executes. -/
def templateOf : ReadOp → TemplateName
  | .byId => .flightById
  | .byDate => .flightByDate
  | .byAirline => .flightByAirline
  | .byOriginAirport => .flightByOriginAirport

/-- A statement text is a read (SELECT) statement. -/
def isSelect (s : String) : Bool := s.data.take 6 == ( "SELECT").data

/-! ## Denotations of the executed templates -/

/-- `FROM flights JOIN airlines ON flights.airline = airlines.id`. -/
def joinFA (db : DB) : List (FlightRow × AirlineRow) :=
  db.flights.flatMap (fun f =>
    (db.airlines.filter (fun a => f.airline == a.id)).map (fun a => (f, a)))

/-- `FROM airlines AS a JOIN flights AS f ON a.ID = f.AIRLINE`. -/
def joinAF (db : DB) : List (AirlineRow × FlightRow) :=
  db.airlines.flatMap (fun a =>
    (db.flights.filter (fun f => a.id == f.airline)).map (fun f => (a, f)))

/-- `COALESCE(f.DEPARTURE_DELAY, 0)` used as a boolean: nonzero is true. -/
def coalesceDelayNonzero (f : FlightRow) : Bool := f.departureDelay.getD 0 != 0

/-- `f.DEPARTURE_DELAY >= 20` (a NULL comparison is not true). -/
def delayGE20 (f : FlightRow) : Bool :=
  match f.departureDelay with
  | some d => 20 ≤ d
  | Option.none => false

def optIntVal : Option Int → Val
  | Option.none => .null
  | some i => .int i

/-- Projection of `QUERY_FLIGHT_BY_ID`: `flights.*`, `airlines.airline`,
`flights.ID as FLIGHT_ID`, `flights.DEPARTURE_DELAY as DELAY`. -/
def projById (fa : FlightRow × AirlineRow) : Row :=
  [( "ID", .int fa.1.id), ( "AIRLINE", .int fa.1.airline),
   ( "ORIGIN_AIRPORT", .str fa.1.originAirport),
   ( "DESTINATION_AIRPORT", .str fa.1.destinationAirport),
   ( "DEPARTURE_DELAY", optIntVal fa.1.departureDelay),
   ( "DAY", .int fa.1.day), ( "MONTH", .int fa.1.month), ( "YEAR", .int fa.1.year),
   ( "airline", .str fa.2.airline), ( "FLIGHT_ID", .int fa.1.id),
   ( "DELAY", optIntVal fa.1.departureDelay)]

/-- Projection shared by the three delayed-flight templates:
`f.id, f.ORIGIN_AIRPORT, f.DESTINATION_AIRPORT, a.AIRLINE, f.DEPARTURE_DELAY AS DELAY`. -/
def projDelayed (af : AirlineRow × FlightRow) : Row :=
  [( "id", .int af.2.id), ( "ORIGIN_AIRPORT", .str af.2.originAirport),
   ( "DESTINATION_AIRPORT", .str af.2.destinationAirport),
   ( "AIRLINE", .str af.1.airline), ( "DELAY", optIntVal af.2.departureDelay)]

/-- Sort key of `ORDER BY DEPARTURE_DELAY DESC` (the rows reaching the sort
all have a non-NULL delay, so the default is immaterial). -/
def delayKey (af : AirlineRow × FlightRow) : Int := af.2.departureDelay.getD 0

def descByDelay (p q : AirlineRow × FlightRow) : Bool := delayKey q ≤ delayKey p

def insertSorted (le : α → α → Bool) (x : α) : List α → List α
  | [] => [x]
  | y :: ys => if le x y then x :: y :: ys else y :: insertSorted le x ys

/-- Model of the engine's `ORDER BY` sort (stable insertion sort). -/
def insertionSort (le : α → α → Bool) : List α → List α
  | [] => []
  | x :: xs => insertSorted le x (insertionSort le xs)

/-- Denotation of `QUERY_FLIGHT_BY_ID` with the bound `:id` parameter. -/
def evalFlightById (db : DB) (idParam : PyVal) : List Row :=
  ((joinFA db).filter (fun fa => pvEqInt fa.1.id idParam)).map projById

/-- Denotation of `QUERY_FLIGHT_BY_DATE` with bound `:day`, `:month`, `:year`. -/
def evalFlightByDate (db : DB) (day month year : PyVal) : List Row :=
  (insertionSort descByDelay ((joinAF db).filter (fun af =>
    coalesceDelayNonzero af.2 && pvEqInt af.2.day day && pvEqInt af.2.month month &&
      pvEqInt af.2.year year && delayGE20 af.2))).map projDelayed

/-- Denotation of `QUERY_FLIGHT_BY_AIRLINE` with the bound `:airline` pattern. -/
def evalFlightByAirline (db : DB) (pattern : String) : List Row :=
  (insertionSort descByDelay ((joinAF db).filter (fun af =>
    coalesceDelayNonzero af.2 && delayGE20 af.2 &&
      likeMatch (asciiLower pattern).data (asciiLower af.1.airline).data))).map projDelayed

/-- Denotation of `QUERY_FLIGHT_BY_ORIGIN_AIRPORT` with bound `:origin_airport`. -/
def evalFlightByOriginAirport (db : DB) (origin : PyVal) : List Row :=
  (insertionSort descByDelay ((joinAF db).filter (fun af =>
    coalesceDelayNonzero af.2 && delayGE20 af.2 &&
      pvEqStr af.2.originAirport origin))).map projDelayed

/-- The delayed-flight rows with no carrier constraint at all: the common
join, delay filter and descending order of the three delayed templates. -/
def evalDelayedAll (db : DB) : List Row :=
  (insertionSort descByDelay ((joinAF db).filter (fun af =>
    coalesceDelayNonzero af.2 && delayGE20 af.2))).map projDelayed

/-! ## The accessor over a possibly-faulting store -/

/-- The backing engine/connection as a lookup observes it: either a healthy
store, or one whose next execution raises (an `SQLAlchemyError`, or any
other runtime exception). -/
inductive StoreBehavior where
  | healthy (db : DB)
  | sqlFault (msg : String)
  | otherFault (msg : String)
deriving DecidableEq

/-- A SQL statement's action on the store: a read (SELECT) produces rows and
leaves the store as it was; a write transforms it. -/
inductive SqlAction where
  | read (q : DB → List Row)
  | write (t : DB → DB)

/-- `FlightData._execute_query`: run the statement, returning the fetched
rows; on `SQLAlchemyError` or any other `Exception`, print the error and
return the empty list.  The first component pairs the returned rows with the
lines printed to standard output; the second is the store after the call. -/
def execute_query (store : StoreBehavior) (act : SqlAction) :
    (List Row × List String) × StoreBehavior :=
  match store with
  | .healthy db =>
    match act with
    | .read q => ((q db, []), .healthy db)
    | .write t => (([], []), .healthy (t db))
  | .sqlFault m => (([], [ "SQLAlchemy Error: " ++ m]), .sqlFault m)
  | .otherFault m => (([], [ "Unexpected Error: " ++ m]), .otherFault m)

/-- `FlightData.get_flight_by_id`. -/
def get_flight_by_id (store : StoreBehavior) (flight_id : PyVal) :
    (List Row × List String) × StoreBehavior :=
  execute_query store (.read (fun db => evalFlightById db flight_id))

/-- `FlightData.get_flights_by_date`. -/
def get_flights_by_date (store : StoreBehavior) (day month year : PyVal) :
    (List Row × List String) × StoreBehavior :=
  execute_query store (.read (fun db => evalFlightByDate db day month year))

/-- `FlightData.get_delayed_flights_by_airline`: the parameter dictionary is
built by the string concatenation `"%" + airline + "%"` before
`_execute_query` is entered; a `TypeError` raised there propagates
(`Except.error`). -/
def get_delayed_flights_by_airline (store : StoreBehavior) (airline : PyVal) :
    Except String ((List Row × List String) × StoreBehavior) := do
  let p1 ← strAdd "%" airline
  let p2 ← strAdd p1 (.str "%")
  return execute_query store (.read (fun db => evalFlightByAirline db p2))

/-- `FlightData.get_delayed_flights_by_airport`. -/
def get_delayed_flights_by_airport (store : StoreBehavior) (airport_input : PyVal) :
    (List Row × List String) × StoreBehavior :=
  execute_query store (.read (fun db => evalFlightByOriginAirport db airport_input))

/-- The engine produced by a successful `create_engine(db_uri)`. -/
structure Engine where
  uri : String
deriving Repr, DecidableEq

/-- The accessor object: holds the engine built at construction. -/
structure FlightData where
  engine : Engine
deriving Repr, DecidableEq

/-- `FlightData.__init__`: `self._engine = create_engine(db_uri)` with no
exception handling, so a construction fault propagates unchanged. -/
def FlightData.init (createResult : Except String Engine) : Except String FlightData := do
  let e ← createResult
  return ⟨e⟩

/-! ## Observations on returned records -/

/-- The `DELAY` field of a returned record, when it is an integer. -/
def rowDelay (r : Row) : Option Int :=
  match r.lookup "DELAY" with
  | some (.int i) => some i
  | _ => Option.none

/-- The column names of a returned record, in order. -/
def rowCols (r : Row) : List String := r.map Prod.fst

def byIdCols : List String :=
  [ "ID", "AIRLINE", "ORIGIN_AIRPORT", "DESTINATION_AIRPORT", "DEPARTURE_DELAY",
    "DAY", "MONTH", "YEAR", "airline", "FLIGHT_ID", "DELAY"]

def delayedCols : List String :=
  [ "id", "ORIGIN_AIRPORT", "DESTINATION_AIRPORT", "AIRLINE", "DELAY"]

/-- The delayed-lookup output contract: every record carries an integer
`DELAY` of at least 20, and the records are ordered non-increasingly by it. -/
def delayedOk (rows : List Row) : Prop :=
  (∀ r ∈ rows, ∃ d, rowDelay r = some d ∧ 20 ≤ d) ∧
    rows.Pairwise (fun r s => (rowDelay s).getD 0 ≤ (rowDelay r).getD 0)

/-! ## Concrete stores for witnesses -/

def fA : FlightRow :=
  { id := 1, airline := 1, originAirport := "JFK", destinationAirport := "LAX",
    departureDelay := some 35, day := 1, month := 1, year := 2015 }

def fB : FlightRow :=
  { id := 2, airline := 1, originAirport := "SFO", destinationAirport := "JFK",
    departureDelay := some 22, day := 1, month := 1, year := 2015 }

def alDelta : AirlineRow := { id := 1, airline := "Delta Air Lines" }

def dbA : DB := { flights := [fA, fB], airlines := [alDelta] }

/-! ## Sorting lemmas -/

theorem mem_insertSorted (le : α → α → Bool) (x y : α) (l : List α) :
    y ∈ insertSorted le x l ↔ y = x ∨ y ∈ l := by
  induction l with
  | nil => simp [insertSorted]
  | cons z zs ih =>
    by_cases h : le x z = true
    · simp [insertSorted, h]
    · simp only [insertSorted, if_neg h, List.mem_cons, ih]
      tauto

theorem mem_insertionSort (le : α → α → Bool) (y : α) (l : List α) :
    y ∈ insertionSort le l ↔ y ∈ l := by
  induction l with
  | nil => simp [insertionSort]
  | cons x xs ih => simp [insertionSort, mem_insertSorted, ih]

theorem pairwise_insertSorted (le : α → α → Bool)
    (htot : ∀ a b, le a b = true ∨ le b a = true)
    (htrans : ∀ a b c, le a b = true → le b c = true → le a c = true)
    (x : α) (l : List α) (h : l.Pairwise (fun a b => le a b = true)) :
    (insertSorted le x l).Pairwise (fun a b => le a b = true) := by
  induction l with
  | nil => simp [insertSorted]
  | cons z zs ih =>
    rw [List.pairwise_cons] at h
    obtain ⟨hz, hzs⟩ := h
    by_cases hxz : le x z = true
    · simp only [insertSorted, if_pos hxz]
      refine List.Pairwise.cons ?_ (List.Pairwise.cons hz hzs)
      intro b hb
      rcases List.mem_cons.mp hb with rfl | hb2
      · exact hxz
      · exact htrans x z b hxz (hz b hb2)
    · simp only [insertSorted, if_neg hxz]
      have hzx : le z x = true := (htot x z).resolve_left hxz
      refine List.Pairwise.cons ?_ (ih hzs)
      intro b hb
      rcases (mem_insertSorted le x b zs).mp hb with rfl | hb2
      · exact hzx
      · exact hz b hb2

theorem pairwise_insertionSort (le : α → α → Bool)
    (htot : ∀ a b, le a b = true ∨ le b a = true)
    (htrans : ∀ a b c, le a b = true → le b c = true → le a c = true)
    (l : List α) :
    (insertionSort le l).Pairwise (fun a b => le a b = true) := by
  induction l with
  | nil => simp [insertionSort]
  | cons x xs ih => exact pairwise_insertSorted le htot htrans x _ ih

theorem descByDelay_total (a b : AirlineRow × FlightRow) :
    descByDelay a b = true ∨ descByDelay b a = true := by
  unfold descByDelay
  rcases Int.le_total (delayKey b) (delayKey a) with h | h
  · exact Or.inl (decide_eq_true h)
  · exact Or.inr (decide_eq_true h)

theorem descByDelay_trans (a b c : AirlineRow × FlightRow)
    (h1 : descByDelay a b = true) (h2 : descByDelay b c = true) :
    descByDelay a c = true := by
  unfold descByDelay at h1 h2 ⊢
  exact decide_eq_true (le_trans (of_decide_eq_true h2) (of_decide_eq_true h1))

/-! ## Facts about projections and returned records -/

theorem rowDelay_projDelayed (af : AirlineRow × FlightRow) :
    rowDelay (projDelayed af) = af.2.departureDelay := by
  cases h : af.2.departureDelay <;>
    simp [rowDelay, projDelayed, List.lookup, optIntVal, h]

theorem rowCols_projById (fa : FlightRow × AirlineRow) : rowCols (projById fa) = byIdCols := rfl

theorem rowCols_projDelayed (af : AirlineRow × FlightRow) :
    rowCols (projDelayed af) = delayedCols := rfl

theorem lookup_projById_flightId (fa : FlightRow × AirlineRow) :
    (projById fa).lookup "FLIGHT_ID" = some (.int fa.1.id) := rfl

theorem delayedOk_nil : delayedOk [] := ⟨by simp, List.Pairwise.nil⟩

/-- The common shape of the three delayed-flight pipelines satisfies the
delayed-output contract as soon as the filter implies the delay bound. -/
theorem delayedOk_pipeline (l : List (AirlineRow × FlightRow))
    (p : AirlineRow × FlightRow → Bool)
    (hp : ∀ x, p x = true → delayGE20 x.2 = true) :
    delayedOk ((insertionSort descByDelay (l.filter p)).map projDelayed) := by
  constructor
  · intro r hr
    rcases List.mem_map.mp hr with ⟨x, hx, rfl⟩
    have hx2 : x ∈ l.filter p := (mem_insertionSort descByDelay x (l.filter p)).mp hx
    have hge : delayGE20 x.2 = true := hp x (List.mem_filter.mp hx2).2
    rw [rowDelay_projDelayed]
    cases hdd : x.2.departureDelay with
    | none => rw [delayGE20, hdd] at hge; cases hge
    | some d =>
      rw [delayGE20, hdd] at hge
      exact ⟨d, rfl, of_decide_eq_true hge⟩
  · have hs := pairwise_insertionSort descByDelay descByDelay_total descByDelay_trans (l.filter p)
    refine hs.map projDelayed ?_
    intro a b h
    rw [rowDelay_projDelayed, rowDelay_projDelayed]
    exact of_decide_eq_true h

/-! ## String and LIKE lemmas -/

theorem asciiLower_append (a b : String) :
    asciiLower (a ++ b) = asciiLower a ++ asciiLower b := by
  cases a with
  | mk la =>
    cases b with
    | mk lb =>
      show String.mk ((la ++ lb).map asciiLowerChar) =
        String.mk (la.map asciiLowerChar ++ lb.map asciiLowerChar)
      rw [List.map_append]

theorem likeMatch_allPercent (ps : List Char) (hne : ps ≠ [])
    (hp : ∀ c ∈ ps, c = '%') (s : List Char) : likeMatch ps s = true := by
  induction ps generalizing s with
  | nil => cases hne rfl
  | cons p ps ih =>
    have hp0 : p = '%' := hp p (List.mem_cons_self p ps)
    subst hp0
    simp only [likeMatch, if_pos (by rfl : ( '%' == '%') = true), List.any_eq_true]
    cases ps with
    | nil =>
      refine ⟨[], ?_, rfl⟩
      rw [List.mem_tails]
      exact List.nil_suffix
    | cons q qs =>
      refine ⟨s, ?_, ih (by simp) (fun c hc => hp c (List.mem_cons_of_mem _ hc)) s⟩
      rw [List.mem_tails]

theorem evalByAirline_allPercentPattern (db : DB) (pat : String)
    (hne : (asciiLower pat).data ≠ [])
    (hp : ∀ c ∈ (asciiLower pat).data, c = '%') :
    evalFlightByAirline db pat = evalDelayedAll db := by
  unfold evalFlightByAirline evalDelayedAll
  congr 1
  congr 1
  apply List.filter_congr
  intro x hx
  rw [likeMatch_allPercent (asciiLower pat).data hne hp (asciiLower x.1.airline).data,
    Bool.and_true]

/-! ## Lemmas for the lookup-by-identifier query -/

theorem byId_head_filter (f : FlightRow) (i : Int) (s : List AirlineRow) :
    ((s.map (fun a => (f, a))).filter (fun fa => fa.1.id == i)) =
      if (f.id == i) = true then s.map (fun a => (f, a)) else [] := by
  induction s with
  | nil => by_cases h : (f.id == i) = true <;> simp [h]
  | cons a s ih =>
    by_cases h : (f.id == i) = true <;>
      simp [List.map_cons, List.filter_cons, h, ih]

theorem byId_filter_absent (fl : List FlightRow) (al : List AirlineRow) (i : Int)
    (h : ∀ f ∈ fl, ¬(f.id = i)) :
    (joinFA ⟨fl, al⟩).filter (fun fa => fa.1.id == i) = [] := by
  induction fl with
  | nil => rfl
  | cons f fl ih =>
    have hf : ¬((f.id == i) = true) := by
      simp only [beq_iff_eq]
      exact h f (List.mem_cons_self f fl)
    have htail := ih (fun g hg => h g (List.mem_cons_of_mem f hg))
    simp only [joinFA, List.flatMap_cons, List.filter_append] at htail ⊢
    rw [byId_head_filter, if_neg hf, htail]
    rfl

theorem byId_filter_present (fl : List FlightRow) (al : List AirlineRow) (i : Int)
    (hids : (fl.map FlightRow.id).Nodup)
    (href : ∀ f ∈ fl, (al.filter (fun a => f.airline == a.id)).length = 1)
    (f0 : FlightRow) (hf0 : f0 ∈ fl) (hid : f0.id = i) :
    ∃ a0, (joinFA ⟨fl, al⟩).filter (fun fa => fa.1.id == i) = [(f0, a0)] := by
  induction fl with
  | nil => cases hf0
  | cons f fl ih =>
    rw [List.map_cons, List.nodup_cons] at hids
    obtain ⟨hnotmem, hnodtail⟩ := hids
    rcases List.mem_cons.mp hf0 with rfl | hf0tail
    · obtain ⟨a0, ha0⟩ := List.length_eq_one.mp (href f0 (List.mem_cons_self f0 fl))
      refine ⟨a0, ?_⟩
      have htail : (joinFA ⟨fl, al⟩).filter (fun fa => fa.1.id == i) = [] := by
        apply byId_filter_absent
        intro g hg hgid
        exact hnotmem (by
          rw [hid, ← hgid]
          exact List.mem_map_of_mem FlightRow.id hg)
      simp only [joinFA, List.flatMap_cons, List.filter_append] at htail ⊢
      rw [byId_head_filter, if_pos (beq_iff_eq.mpr hid), ha0, htail]
      rfl
    · have hfne : ¬((f.id == i) = true) := by
        simp only [beq_iff_eq]
        intro hfi
        exact hnotmem (by
          rw [hfi, ← hid]
          exact List.mem_map_of_mem FlightRow.id hf0tail)
      obtain ⟨a0, ha0⟩ := ih hnodtail
        (fun g hg => href g (List.mem_cons_of_mem f hg)) hf0tail
      refine ⟨a0, ?_⟩
      simp only [joinFA, List.flatMap_cons, List.filter_append] at ha0 ⊢
      rw [byId_head_filter, if_neg hfne, ha0]
      rfl

/-! ## Claims -/

/-- C1: every lookup operation (by identifier, by date, by carrier substring,
by origin location), on a store whose execution raises an `SQLAlchemyError`
or any other runtime exception, catches the fault, logs it to standard
output, and returns the empty sequence; being total functions into the
result-with-log type, the lookups propagate no query-time fault. -/
theorem C1_query_faults_swallowed (m : String) (v d mo y o : PyVal) (a : String) :
    get_flight_by_id (.sqlFault m) v = (([], [ "SQLAlchemy Error: " ++ m]), .sqlFault m) ∧
    get_flight_by_id (.otherFault m) v = (([], [ "Unexpected Error: " ++ m]), .otherFault m) ∧
    get_flights_by_date (.sqlFault m) d mo y = (([], [ "SQLAlchemy Error: " ++ m]), .sqlFault m) ∧
    get_flights_by_date (.otherFault m) d mo y = (([], [ "Unexpected Error: " ++ m]), .otherFault m) ∧
    get_delayed_flights_by_airline (.sqlFault m) (.str a) =
      .ok (([], [ "SQLAlchemy Error: " ++ m]), .sqlFault m) ∧
    get_delayed_flights_by_airline (.otherFault m) (.str a) =
      .ok (([], [ "Unexpected Error: " ++ m]), .otherFault m) ∧
    get_delayed_flights_by_airport (.sqlFault m) o =
      (([], [ "SQLAlchemy Error: " ++ m]), .sqlFault m) ∧
    get_delayed_flights_by_airport (.otherFault m) o =
      (([], [ "Unexpected Error: " ++ m]), .otherFault m) :=
  ⟨rfl, rfl, rfl, rfl, rfl, rfl, rfl, rfl⟩

/-- C2: for every (day, month, year) triple of integers and every store
state, every record returned by lookup-by-date has departure delay at least
20 and the sequence is sorted non-increasing by that delay; the carrier and
origin-location lookups satisfy the same delay filter and order. -/
theorem C2_delay_filter_and_order (store : StoreBehavior) (d m y : Int) (a o : String) :
    delayedOk ((get_flights_by_date store (.int d) (.int m) (.int y)).1.1) ∧
    (∀ res, get_delayed_flights_by_airline store (.str a) = .ok res → delayedOk res.1.1) ∧
    delayedOk ((get_delayed_flights_by_airport store (.str o)).1.1) := by
  cases store with
  | healthy db =>
    refine ⟨?_, ?_, ?_⟩
    · exact delayedOk_pipeline (joinAF db) _ (fun x hx => by
        simp only [Bool.and_eq_true] at hx
        exact hx.2)
    · intro res h
      have h2 : Except.ok ((evalFlightByAirline db (( "%" ++ a) ++ "%"), ([] : List String)),
          StoreBehavior.healthy db) = Except.ok res := h
      obtain rfl := (Except.ok.inj h2).symm
      exact delayedOk_pipeline (joinAF db) _ (fun x hx => by
        simp only [Bool.and_eq_true] at hx
        exact hx.1.2)
    · exact delayedOk_pipeline (joinAF db) _ (fun x hx => by
        simp only [Bool.and_eq_true] at hx
        exact hx.1.2)
  | sqlFault msg =>
    refine ⟨delayedOk_nil, ?_, delayedOk_nil⟩
    intro res h
    have h2 : Except.ok ((([] : List Row), [ "SQLAlchemy Error: " ++ msg]),
        StoreBehavior.sqlFault msg) = Except.ok res := h
    obtain rfl := (Except.ok.inj h2).symm
    exact delayedOk_nil
  | otherFault msg =>
    refine ⟨delayedOk_nil, ?_, delayedOk_nil⟩
    intro res h
    have h2 : Except.ok ((([] : List Row), [ "Unexpected Error: " ++ msg]),
        StoreBehavior.otherFault msg) = Except.ok res := h
    obtain rfl := (Except.ok.inj h2).symm
    exact delayedOk_nil

theorem C2_delay_filter_and_order_witness :
    delayedOk ((get_flights_by_date (.healthy dbA) (.int 1) (.int 1) (.int 2015)).1.1) ∧
    delayedOk (evalFlightByAirline dbA (( "%" ++ "d") ++ "%")) ∧
    delayedOk ((get_delayed_flights_by_airport (.healthy dbA) (.str "JFK")).1.1) := by
  obtain ⟨h1, h2, h3⟩ := C2_delay_filter_and_order (.healthy dbA) 1 1 2015 "d" "JFK"
  exact ⟨h1, h2 _ rfl, h3⟩

/-- C3: on a well-formed store (flight identifiers unique, carrier foreign
key resolving to exactly one carrier row), lookup-by-identifier returns
exactly one record, whose identifier field equals the input, when the
identifier is present in the store, and the empty sequence when absent. -/
theorem C3_lookup_by_identifier (db : DB) (i : Int)
    (hids : (db.flights.map FlightRow.id).Nodup)
    (href : ∀ f ∈ db.flights, (db.airlines.filter (fun a => f.airline == a.id)).length = 1) :
    ((∃ f ∈ db.flights, f.id = i) →
      ∃ r, (get_flight_by_id (.healthy db) (.int i)).1.1 = [r] ∧
        r.lookup "FLIGHT_ID" = some (.int i)) ∧
    ((∀ f ∈ db.flights, ¬(f.id = i)) →
      (get_flight_by_id (.healthy db) (.int i)).1.1 = []) := by
  obtain ⟨fl, al⟩ := db
  constructor
  · rintro ⟨f0, hf0, hid⟩
    obtain ⟨a0, ha⟩ := byId_filter_present fl al i hids href f0 hf0 hid
    refine ⟨projById (f0, a0), ?_, ?_⟩
    · show ((joinFA ⟨fl, al⟩).filter (fun fa => fa.1.id == i)).map projById = _
      rw [ha]
      rfl
    · rw [lookup_projById_flightId, hid]
  · intro h
    show ((joinFA ⟨fl, al⟩).filter (fun fa => fa.1.id == i)).map projById = []
    rw [byId_filter_absent fl al i h]
    rfl

theorem C3_lookup_by_identifier_witness :
    (∃ r, (get_flight_by_id (.healthy dbA) (.int 1)).1.1 = [r] ∧
      r.lookup "FLIGHT_ID" = some (.int 1)) ∧
    (get_flight_by_id (.healthy dbA) (.int 99)).1.1 = [] := by
  constructor
  · exact (C3_lookup_by_identifier dbA 1 (by decide) (by decide)).1 ⟨fA, by decide, by decide⟩
  · exact (C3_lookup_by_identifier dbA 99 (by decide) (by decide)).2 (by decide)

/-- C4: lookup-by-carrier-substring is case-insensitive: two inputs that
differ only in (ASCII) letter case produce identical results on every
store state. -/
theorem C4_case_insensitive (store : StoreBehavior) (s t : String)
    (h : asciiLower s = asciiLower t) :
    get_delayed_flights_by_airline store (.str s) =
      get_delayed_flights_by_airline store (.str t) := by
  have hw : asciiLower (( "%" ++ s) ++ "%") = asciiLower (( "%" ++ t) ++ "%") := by
    rw [asciiLower_append, asciiLower_append, asciiLower_append, asciiLower_append, h]
  have hfun : (fun db => evalFlightByAirline db (( "%" ++ s) ++ "%")) =
      (fun db => evalFlightByAirline db (( "%" ++ t) ++ "%")) := by
    funext db
    unfold evalFlightByAirline
    simp only [hw]
  show Except.ok (execute_query store
      (.read (fun db => evalFlightByAirline db (( "%" ++ s) ++ "%")))) =
    Except.ok (execute_query store
      (.read (fun db => evalFlightByAirline db (( "%" ++ t) ++ "%"))))
  rw [hfun]

theorem C4_case_insensitive_witness :
    get_delayed_flights_by_airline (.healthy dbA) (.str "delta") =
      get_delayed_flights_by_airline (.healthy dbA) (.str "DELTA") :=
  C4_case_insensitive (.healthy dbA) "delta" "DELTA" (by decide)

/-- C5 counterexample: the accessor does not offer five read operations —
its public lookup methods number four. -/
theorem C5_cex_not_five_operations : ¬(readOps.length = 5) := by decide

/-- C5 (amended): the accessor offers exactly four read operations, each
mapping one query intent to one (distinct) parameterized SQL statement drawn
from the fixed set of 6 immutable named templates defined at process start. -/
theorem C5_four_operations_six_templates :
    readOps.length = 4 ∧ readOps.Nodup ∧
    templateNames.length = 6 ∧ templateNames.Nodup ∧
    (readOps.map templateOf).Nodup ∧
    (∀ op : ReadOp, templateOf op ∈ templateNames) := by
  refine ⟨rfl, by decide, rfl, by decide, by decide, ?_⟩
  intro op
  cases op <;> decide

/-- C6: a fault at accessor construction (`create_engine`) propagates to the
caller, and a `TypeError` during the carrier lookup's parameter binding
(string concatenation on a non-string argument) propagates as well, instead
of being downgraded to an empty sequence. -/
theorem C6_construction_binding_faults_propagate (m : String) (store : StoreBehavior)
    (v : PyVal) (h : v.isStr = false) :
    FlightData.init (.error m) = .error m ∧
    (∃ msg, get_delayed_flights_by_airline store v = .error msg) := by
  refine ⟨rfl, ?_⟩
  cases v with
  | str s => simp [PyVal.isStr] at h
  | int i => exact ⟨_, rfl⟩
  | bool b => exact ⟨_, rfl⟩
  | none => exact ⟨_, rfl⟩

theorem C6_construction_binding_faults_propagate_witness :
    FlightData.init (.error "bad uri") = .error "bad uri" ∧
    (∃ msg, get_delayed_flights_by_airline (.healthy dbA) (.int 7) = .error msg) :=
  C6_construction_binding_faults_propagate "bad uri" (.healthy dbA) (.int 7) rfl

/-- C7: on every store state and every input, each operation returns either
the empty sequence or records all shaped by the executed template's
projection: each returned record's column list is exactly the template's. -/
theorem C7_projection_shape (store : StoreBehavior) (v d m y o : PyVal) (a : String) :
    (∀ r ∈ (get_flight_by_id store v).1.1, rowCols r = byIdCols) ∧
    (∀ r ∈ (get_flights_by_date store d m y).1.1, rowCols r = delayedCols) ∧
    (∀ res, get_delayed_flights_by_airline store (.str a) = .ok res →
      ∀ r ∈ res.1.1, rowCols r = delayedCols) ∧
    (∀ r ∈ (get_delayed_flights_by_airport store o).1.1, rowCols r = delayedCols) := by
  cases store with
  | healthy db =>
    refine ⟨?_, ?_, ?_, ?_⟩
    · intro r hr
      rcases List.mem_map.mp hr with ⟨x, hx, rfl⟩
      exact rowCols_projById x
    · intro r hr
      rcases List.mem_map.mp hr with ⟨x, hx, rfl⟩
      exact rowCols_projDelayed x
    · intro res h
      have h2 : Except.ok ((evalFlightByAirline db (( "%" ++ a) ++ "%"), ([] : List String)),
          StoreBehavior.healthy db) = Except.ok res := h
      obtain rfl := (Except.ok.inj h2).symm
      intro r hr
      rcases List.mem_map.mp hr with ⟨x, hx, rfl⟩
      exact rowCols_projDelayed x
    · intro r hr
      rcases List.mem_map.mp hr with ⟨x, hx, rfl⟩
      exact rowCols_projDelayed x
  | sqlFault msg =>
    refine ⟨fun r hr => absurd hr (List.not_mem_nil r), fun r hr => absurd hr (List.not_mem_nil r),
      ?_, fun r hr => absurd hr (List.not_mem_nil r)⟩
    intro res h
    have h2 : Except.ok ((([] : List Row), [ "SQLAlchemy Error: " ++ msg]),
        StoreBehavior.sqlFault msg) = Except.ok res := h
    obtain rfl := (Except.ok.inj h2).symm
    exact fun r hr => absurd hr (List.not_mem_nil r)
  | otherFault msg =>
    refine ⟨fun r hr => absurd hr (List.not_mem_nil r), fun r hr => absurd hr (List.not_mem_nil r),
      ?_, fun r hr => absurd hr (List.not_mem_nil r)⟩
    intro res h
    have h2 : Except.ok ((([] : List Row), [ "Unexpected Error: " ++ msg]),
        StoreBehavior.otherFault msg) = Except.ok res := h
    obtain rfl := (Except.ok.inj h2).symm
    exact fun r hr => absurd hr (List.not_mem_nil r)

theorem C7_projection_shape_witness :
    rowCols (projById (fA, alDelta)) = byIdCols ∧
    rowCols (projDelayed (alDelta, fA)) = delayedCols := by
  constructor
  · exact (C7_projection_shape (.healthy dbA) (.int 1) (.int 1) (.int 1) (.int 2015)
      (.str "JFK") "d").1 (projById (fA, alDelta)) (by decide)
  · exact (C7_projection_shape (.healthy dbA) (.int 1) (.int 1) (.int 1) (.int 2015)
      (.str "JFK") "d").2.2.1 _ rfl (projDelayed (alDelta, fA)) (by decide)

/-- C8: every template the accessor holds is a SELECT statement, and every
lookup leaves the backing store exactly as it was before the call. -/
theorem C8_read_only (store : StoreBehavior) (v d m y o : PyVal) (a : String) :
    (∀ t : TemplateName, isSelect (templateText t) = true) ∧
    (get_flight_by_id store v).2 = store ∧
    (get_flights_by_date store d m y).2 = store ∧
    (∃ out, get_delayed_flights_by_airline store (.str a) = .ok (out, store)) ∧
    (get_delayed_flights_by_airport store o).2 = store := by
  constructor
  · intro t
    cases t <;> rfl
  cases store <;> exact ⟨rfl, rfl, ⟨_, rfl⟩, rfl⟩

/-- C9: the carrier lookup wraps its input in percent signs and matches with
LIKE, so percent and underscore act as wildcards: the empty input and the
input consisting of a lone percent sign both return all records with delay
at least 20, and an underscore in the input matches an arbitrary character
of the carrier name rather than a literal underscore. -/
theorem C9_like_wildcards :
    (∀ db : DB, get_delayed_flights_by_airline (.healthy db) (.str "") =
      .ok ((evalDelayedAll db, []), .healthy db)) ∧
    (∀ db : DB, get_delayed_flights_by_airline (.healthy db) (.str "%") =
      .ok ((evalDelayedAll db, []), .healthy db)) ∧
    get_delayed_flights_by_airline (.healthy dbA) (.str "D_LTA") =
      .ok (([projDelayed (alDelta, fA), projDelayed (alDelta, fB)], []), .healthy dbA) := by
  refine ⟨?_, ?_, rfl⟩
  · intro db
    show Except.ok ((evalFlightByAirline db (( "%" ++ "") ++ "%"), ([] : List String)),
      StoreBehavior.healthy db) = _
    rw [evalByAirline_allPercentPattern db (( "%" ++ "") ++ "%") (by decide) (by decide)]
  · intro db
    show Except.ok ((evalFlightByAirline db (( "%" ++ "%") ++ "%"), ([] : List String)),
      StoreBehavior.healthy db) = _
    rw [evalByAirline_allPercentPattern db (( "%" ++ "%") ++ "%") (by decide) (by decide)]

/-- C10: a non-string argument to the carrier lookup makes the parameter
binding concatenation fail before the guarded execution helper runs — the
resulting fault is independent of the store and propagates — while the other
three lookups, whose parameter dictionaries involve no string operation,
accept any argument and downgrade even a faulting store to an empty result. -/
theorem C10_nonstring_airline_fault_propagates (store store2 : StoreBehavior) (v w : PyVal)
    (m : String) (h : v.isStr = false) :
    (∃ msg, get_delayed_flights_by_airline store v = .error msg ∧
      get_delayed_flights_by_airline store2 v = .error msg) ∧
    get_flight_by_id (.otherFault m) w = (([], [ "Unexpected Error: " ++ m]), .otherFault m) ∧
    get_flights_by_date (.otherFault m) w w w =
      (([], [ "Unexpected Error: " ++ m]), .otherFault m) ∧
    get_delayed_flights_by_airport (.otherFault m) w =
      (([], [ "Unexpected Error: " ++ m]), .otherFault m) := by
  refine ⟨?_, rfl, rfl, rfl⟩
  cases v with
  | str s => simp [PyVal.isStr] at h
  | int i => exact ⟨_, rfl, rfl⟩
  | bool b => exact ⟨_, rfl, rfl⟩
  | none => exact ⟨_, rfl, rfl⟩

theorem C10_nonstring_airline_fault_propagates_witness :
    (∃ msg, get_delayed_flights_by_airline (.healthy dbA) .none = .error msg ∧
      get_delayed_flights_by_airline (.sqlFault "down") .none = .error msg) ∧
    get_flight_by_id (.otherFault "boom") .none =
      (([], [ "Unexpected Error: " ++ "boom"]), .otherFault "boom") ∧
    get_flights_by_date (.otherFault "boom") .none .none .none =
      (([], [ "Unexpected Error: " ++ "boom"]), .otherFault "boom") ∧
    get_delayed_flights_by_airport (.otherFault "boom") .none =
      (([], [ "Unexpected Error: " ++ "boom"]), .otherFault "boom") :=
  C10_nonstring_airline_fault_propagates (.healthy dbA) (.sqlFault "down") .none .none "boom" rfl

end SkySql
